import Mathlib

/-!
Verification of the MicroTBX LINUX port critical-section backend
(`source/port/LINUX/tbxport.c`).

The file holds two static flags (`criticalSectionInitialized`,
`interruptsDisabled`) and a pthread mutex (`mtxCritSect`), and two
operations: `TbxPortInterruptsDisable` and `TbxPortInterruptsRestore`.

We embed the program state shallowly:
* `criticalSectionInitialized` and `interruptsDisabled` become `Bool`
  fields (the C code stores `TBX_FALSE`/`TBX_TRUE` in `uint8_t`s);
* the pthread mutex is abstracted to whether it is currently held by
  this abstraction (`mtxLocked`), plus a counter `mtxInitCount` of how
  many times `pthread_mutex_init` has been invoked on it;
* `TBX_ASSERT` failures are counted in `assertFailCount` (the macro,
  whose definition lives outside this file, checks its condition and
  triggers the assertion handler when the condition is false; execution
  then continues in this model, matching a handler that returns).

A second, finer-grained embedding (`stepThread` and friends) gives each
volatile read/write and each mutex call its own atomic micro-step so
that interleavings of several threads can be examined.
-/

/-- The shared static state of `tbxport.c`. -/
structure TbxState where
  criticalSectionInitialized : Bool
  interruptsDisabled : Bool
  mtxLocked : Bool
  mtxInitCount : Nat
  assertFailCount : Nat
deriving DecidableEq, Repr

/-- `TbxPortInterruptsDisable` (tbxport.c lines 62-89): initializes the
critical-section mutex on first use, then enters the critical section if
not already entered (setting `interruptsDisabled` and locking the
mutex), and returns the CPU status register value, which is always the
constant `0` on this port. -/
def TbxPortInterruptsDisable (s : TbxState) : TbxState × Nat :=
  let result : Nat := 0
  let s1 :=
    if s.criticalSectionInitialized = false then
      { s with mtxInitCount := s.mtxInitCount + 1,
               criticalSectionInitialized := true }
    else s
  let s2 :=
    if s1.interruptsDisabled = false then
      { s1 with interruptsDisabled := true, mtxLocked := true }
    else s1
  (s2, result)

/-- `TbxPortInterruptsRestore` (tbxport.c lines 102-118): ignores its
`prev_cpu_sr` parameter, asserts that the critical section object was
initialized, and leaves the critical section if it was entered
(unlocking the mutex and clearing `interruptsDisabled`). -/
def TbxPortInterruptsRestore (prev_cpu_sr : Nat) (s : TbxState) : TbxState :=
  let s1 :=
    if s.criticalSectionInitialized = true then s
    else { s with assertFailCount := s.assertFailCount + 1 }
  if s1.interruptsDisabled = true then
    { s1 with mtxLocked := false, interruptsDisabled := false }
  else s1

/-- The sequence of intermediate shared states produced during one call
to `TbxPortInterruptsDisable`, one entry per store to shared state, in
program order (tbxport.c lines 72-85): `pthread_mutex_init`, the store
to `criticalSectionInitialized`, the store to `interruptsDisabled`
(line 83), and `pthread_mutex_lock` (line 84). -/
def disableMicroStates (s : TbxState) : List TbxState :=
  let l1 :=
    if s.criticalSectionInitialized = false then
      let a := { s with mtxInitCount := s.mtxInitCount + 1 }
      let b := { a with criticalSectionInitialized := true }
      [a, b]
    else []
  let s1 := l1.getLastD s
  let l2 :=
    if s1.interruptsDisabled = false then
      let c := { s1 with interruptsDisabled := true }
      let d := { c with mtxLocked := true }
      [c, d]
    else []
  l1 ++ l2

/-- One external call into the port: `TbxPortInterruptsDisable`, or
`TbxPortInterruptsRestore` with a token value. -/
inductive TbxOp where
  | disable : TbxOp
  | restore : Nat → TbxOp
deriving DecidableEq, Repr

/-- Apply one call to the shared state, discarding the return value. -/
def applyOp (s : TbxState) : TbxOp → TbxState
  | .disable => (TbxPortInterruptsDisable s).1
  | .restore t => TbxPortInterruptsRestore t s

/-- The state at process start: both flags `TBX_FALSE`, mutex never
initialized, not held, no assertion failures. -/
def initialState : TbxState :=
  { criticalSectionInitialized := false
    interruptsDisabled := false
    mtxLocked := false
    mtxInitCount := 0
    assertFailCount := 0 }

/-- Run a sequence of calls from the process-start state. -/
def runOps (ops : List TbxOp) : TbxState :=
  ops.foldl applyOp initialState

/-- A state is reachable when some sequence of calls from process start
produces it. -/
def Reachable (s : TbxState) : Prop :=
  ∃ ops : List TbxOp, runOps ops = s

/-!
Fine-grained interleaved model.  Each thread executes one
`TbxPortInterruptsDisable` / increment-shared-counter /
`TbxPortInterruptsRestore` cycle.  Every volatile read or write of the
shared flags, every access to the shared counter and every pthread
mutex call is one atomic micro-step; a scheduler (a list of thread
indices) chooses which thread performs its next micro-step.
-/

/-- Program counter of one thread running a Disable / increment /
Restore cycle through the code of tbxport.c. -/
inductive TPC where
  | dChkInit   -- line 72: read criticalSectionInitialized and branch
  | dMtxInit   -- line 75: pthread_mutex_init
  | dSetInit   -- line 77: criticalSectionInitialized = TBX_TRUE
  | dChkHeld   -- line 81: read interruptsDisabled and branch
  | dSetHeld   -- line 83: interruptsDisabled = TBX_TRUE
  | dMtxLock   -- line 84: pthread_mutex_lock (blocks while held)
  | incRead    -- caller: read the shared counter into a local
  | incWrite   -- caller: write local + 1 back to the shared counter
  | rAssert    -- line 110: TBX_ASSERT(criticalSectionInitialized == TBX_TRUE)
  | rChkHeld   -- line 113: read interruptsDisabled and branch
  | rMtxUnlock -- line 115: pthread_mutex_unlock
  | rClrHeld   -- line 116: interruptsDisabled = TBX_FALSE
  | tdone      -- cycle finished
deriving DecidableEq, Repr

/-- Shared memory of the interleaved model: the two volatile flags, the
mutex (owner thread index when held), the count of mutex
initializations, the callers' shared counter, and the count of failed
assertions. -/
structure CState where
  csInit : Bool
  intDis : Bool
  mtxOwner : Option Nat
  mtxInits : Nat
  counter : Nat
  assertFails : Nat
deriving DecidableEq, Repr

/-- One thread: its program counter and the local variable holding the
counter value it read. -/
structure Thread where
  pc : TPC
  loc : Nat
deriving DecidableEq, Repr

/-- One atomic micro-step of thread `tid`: the new shared state and the
new thread state.  A thread blocked in `pthread_mutex_lock` while the
mutex is owned stays in place. -/
def stepThread (tid : Nat) (g : CState) (t : Thread) : CState × Thread :=
  match t.pc with
  | .dChkInit =>
      (g, { t with pc := if g.csInit then .dChkHeld else .dMtxInit })
  | .dMtxInit =>
      ({ g with mtxInits := g.mtxInits + 1 }, { t with pc := .dSetInit })
  | .dSetInit =>
      ({ g with csInit := true }, { t with pc := .dChkHeld })
  | .dChkHeld =>
      (g, { t with pc := if g.intDis then .incRead else .dSetHeld })
  | .dSetHeld =>
      ({ g with intDis := true }, { t with pc := .dMtxLock })
  | .dMtxLock =>
      match g.mtxOwner with
      | none => ({ g with mtxOwner := some tid }, { t with pc := .incRead })
      | some _ => (g, t)
  | .incRead =>
      (g, { t with loc := g.counter, pc := .incWrite })
  | .incWrite =>
      ({ g with counter := t.loc + 1 }, { t with pc := .rAssert })
  | .rAssert =>
      (if g.csInit then g else { g with assertFails := g.assertFails + 1 },
       { t with pc := .rChkHeld })
  | .rChkHeld =>
      (g, { t with pc := if g.intDis then .rMtxUnlock else .tdone })
  | .rMtxUnlock =>
      ({ g with mtxOwner := none }, { t with pc := .rClrHeld })
  | .rClrHeld =>
      ({ g with intDis := false }, { t with pc := .tdone })
  | .tdone => (g, t)

/-- The whole system: shared memory plus the list of threads. -/
structure Sys where
  g : CState
  ths : List Thread
deriving DecidableEq, Repr

/-- Let thread `i` perform its next micro-step (no-op when `i` is out
of range). -/
def stepSys (s : Sys) (i : Nat) : Sys :=
  match s.ths[i]? with
  | none => s
  | some t =>
      let gt := stepThread i s.g t
      { g := gt.1, ths := s.ths.set i gt.2 }

/-- Run the system under a schedule: each entry names the thread that
performs its next micro-step. -/
def runSched (s : Sys) (sched : List Nat) : Sys :=
  sched.foldl stepSys s

/-- Two threads at process start, each about to perform one guarded
increment of the shared counter (initially 0). -/
def initSys : Sys :=
  { g := { csInit := false, intDis := false, mtxOwner := none,
           mtxInits := 0, counter := 0, assertFails := 0 }
    ths := [{ pc := .dChkInit, loc := 0 }, { pc := .dChkInit, loc := 0 }] }

/-- A thread is inside its protected region when it has returned from
`TbxPortInterruptsDisable` and has not yet entered
`TbxPortInterruptsRestore`. -/
def inCritical (t : Thread) : Bool :=
  t.pc = .incRead ∨ t.pc = .incWrite

/-- Schedule exhibiting the cross-thread `interruptsDisabled` hazard:
thread 0 completes Disable and holds the mutex; thread 1 then calls
Disable, observes `interruptsDisabled == TBX_TRUE` (set by thread 0)
and skips acquisition; both threads read the counter before either
writes it; both then run Restore to completion. -/
def overlapSched : List Nat :=
  [0, 0, 0, 0, 0, 0, 1, 1, 1, 0, 0, 1, 0, 0, 0, 0, 1, 1]

/-- The Disable / Disable / Restore / Restore call sequence performed
by a single thread, starting from state `s`. -/
def ddrr (s : TbxState) : TbxState :=
  TbxPortInterruptsRestore 0 (TbxPortInterruptsRestore 0
    (TbxPortInterruptsDisable (TbxPortInterruptsDisable s).1).1)

/-- The `Unlocked` state of the spec state machine: critical section
object initialized, interrupts not disabled, mutex not held. -/
def unlockedState : TbxState :=
  { criticalSectionInitialized := true
    interruptsDisabled := false
    mtxLocked := false
    mtxInitCount := 1
    assertFailCount := 0 }

/-- Invariant maintained by the port: the mutex is held exactly when
`interruptsDisabled` is set; `interruptsDisabled` implies the critical
section object is initialized; the mutex is initialized at most once
and only after the flag records it. -/
def TbxInv (s : TbxState) : Prop :=
  s.mtxLocked = s.interruptsDisabled ∧
  (s.interruptsDisabled = true → s.criticalSectionInitialized = true) ∧
  (s.criticalSectionInitialized = false → s.mtxInitCount = 0) ∧
  s.mtxInitCount ≤ 1

lemma tbxInv_initialState : TbxInv initialState := by
  refine ⟨rfl, ?_, ?_, ?_⟩ <;> simp [initialState]

lemma tbxInv_applyOp (s : TbxState) (op : TbxOp) (h : TbxInv s) :
    TbxInv (applyOp s op) := by
  obtain ⟨ci, idis, ml, mc, af⟩ := s
  obtain ⟨h1, h2, h3, h4⟩ := h
  cases op <;> cases ci <;> cases idis <;>
    simp_all [TbxInv, applyOp, TbxPortInterruptsDisable,
      TbxPortInterruptsRestore]

lemma tbxInv_foldl (ops : List TbxOp) :
    ∀ s : TbxState, TbxInv s → TbxInv (ops.foldl applyOp s) := by
  induction ops with
  | nil => intro s h; exact h
  | cons op rest ih =>
      intro s h
      exact ih (applyOp s op) (tbxInv_applyOp s op h)

lemma reachable_inv (s : TbxState) (h : Reachable s) : TbxInv s := by
  obtain ⟨ops, rfl⟩ := h
  exact tbxInv_foldl ops initialState tbxInv_initialState

/-- C10: `TbxPortInterruptsDisable` always returns the token 0, and
after it returns both `criticalSectionInitialized` and
`interruptsDisabled` are true, whatever the prior state. -/
theorem disable_returns_zero_and_sets_flags (s : TbxState) :
    (TbxPortInterruptsDisable s).2 = 0 ∧
    (TbxPortInterruptsDisable s).1.criticalSectionInitialized = true ∧
    (TbxPortInterruptsDisable s).1.interruptsDisabled = true := by
  obtain ⟨ci, idis, ml, mc, af⟩ := s
  cases ci <;> cases idis <;>
    simp [TbxPortInterruptsDisable]

/-- C8: `TbxPortInterruptsRestore` is insensitive to its token
argument: on every state, any two token values produce the same
resulting state. -/
theorem restore_token_irrelevant (s : TbxState) (t1 t2 : Nat) :
    TbxPortInterruptsRestore t1 s = TbxPortInterruptsRestore t2 s := rfl

/-- C5: on every reachable state, and again after one further call to
either operation, `interruptsDisabled` is true exactly when the mutex
is held by this abstraction. -/
theorem held_iff_locked (s : TbxState) (op : TbxOp) (hR : Reachable s) :
    (s.interruptsDisabled = true ↔ s.mtxLocked = true) ∧
    ((applyOp s op).interruptsDisabled = true ↔
      (applyOp s op).mtxLocked = true) := by
  have h1 := (reachable_inv s hR).1
  have hR2 : Reachable (applyOp s op) := by
    obtain ⟨ops, rfl⟩ := hR
    exact ⟨ops ++ [op], by simp [runOps, List.foldl_append]⟩
  have h2 := (reachable_inv (applyOp s op) hR2).1
  constructor
  · rw [h1]
  · rw [h2]

/-- C5 witness: the invariant instantiated at the process-start state
and a first `Disable` call. -/
theorem held_iff_locked_witness :
    (initialState.interruptsDisabled = true ↔
      initialState.mtxLocked = true) ∧
    ((applyOp initialState TbxOp.disable).interruptsDisabled = true ↔
      (applyOp initialState TbxOp.disable).mtxLocked = true) :=
  held_iff_locked initialState TbxOp.disable ⟨[], rfl⟩

/-- C6: `criticalSectionInitialized` is monotone and the mutex is
initialized at most once: `Disable` always leaves the flag true; once
the flag is true neither operation clears it or re-initializes the
mutex; over any call sequence from process start the mutex is
initialized at most one time. -/
theorem init_flag_monotone :
    (∀ s : TbxState,
      (TbxPortInterruptsDisable s).1.criticalSectionInitialized = true) ∧
    (∀ (s : TbxState) (op : TbxOp),
      s.criticalSectionInitialized = true →
        (applyOp s op).criticalSectionInitialized = true ∧
        (applyOp s op).mtxInitCount = s.mtxInitCount) ∧
    (∀ ops : List TbxOp, (runOps ops).mtxInitCount ≤ 1) := by
  refine ⟨?_, ?_, ?_⟩
  · intro s
    obtain ⟨ci, idis, ml, mc, af⟩ := s
    cases ci <;> cases idis <;>
      simp [TbxPortInterruptsDisable]
  · intro s op h
    obtain ⟨ci, idis, ml, mc, af⟩ := s
    cases h
    cases op <;> cases idis <;>
      simp [applyOp, TbxPortInterruptsDisable, TbxPortInterruptsRestore]
  · intro ops
    exact (tbxInv_foldl ops initialState tbxInv_initialState).2.2.2

/-- C6 witness: the monotonicity facts instantiated at concrete
states and call sequences. -/
theorem init_flag_monotone_witness :
    (TbxPortInterruptsDisable initialState).1.criticalSectionInitialized
      = true ∧
    ((applyOp unlockedState TbxOp.disable).criticalSectionInitialized
        = true ∧
      (applyOp unlockedState TbxOp.disable).mtxInitCount
        = unlockedState.mtxInitCount) ∧
    (runOps [TbxOp.disable, TbxOp.restore 0, TbxOp.disable]).mtxInitCount
      ≤ 1 :=
  ⟨init_flag_monotone.1 initialState,
   init_flag_monotone.2.1 unlockedState TbxOp.disable (by decide),
   init_flag_monotone.2.2 [TbxOp.disable, TbxOp.restore 0, TbxOp.disable]⟩

/-- C2: on a reachable state where `interruptsDisabled` is already
true, `TbxPortInterruptsDisable` is a complete no-op (it does not
re-acquire the mutex and changes no flag), and the
Disable-Disable-Restore-Restore sequence from any state terminates
with `interruptsDisabled` false and the mutex released. -/
theorem nested_disable_noop (s : TbxState) (hR : Reachable s)
    (h : s.interruptsDisabled = true) :
    (TbxPortInterruptsDisable s).1 = s ∧
    (∀ s0 : TbxState,
      (ddrr s0).interruptsDisabled = false ∧ (ddrr s0).mtxLocked = false) := by
  have hci : s.criticalSectionInitialized = true :=
    (reachable_inv s hR).2.1 h
  constructor
  · simp [TbxPortInterruptsDisable, hci, h]
  · intro s0
    obtain ⟨ci, idis, ml, mc, af⟩ := s0
    cases ci <;> cases idis <;>
      simp [ddrr, TbxPortInterruptsDisable, TbxPortInterruptsRestore]

/-- C2 witness: the state after one `Disable` from process start is
reachable and has `interruptsDisabled` set; there the nested-Disable
no-op and the Disable-Disable-Restore-Restore round trip hold. -/
theorem nested_disable_noop_witness :
    (TbxPortInterruptsDisable (runOps [TbxOp.disable])).1
      = runOps [TbxOp.disable] ∧
    (∀ s0 : TbxState,
      (ddrr s0).interruptsDisabled = false ∧ (ddrr s0).mtxLocked = false) :=
  nested_disable_noop (runOps [TbxOp.disable])
    ⟨[TbxOp.disable], rfl⟩ (by decide)

/-- C3: on a state with `criticalSectionInitialized` true and
`interruptsDisabled` false, `TbxPortInterruptsRestore` leaves the
entire state unchanged (no unlock of the unheld mutex, no assertion),
and a subsequent Disable/Restore pair still enters and leaves the
critical section correctly. -/
theorem redundant_restore_noop (s : TbxState) (t t2 : Nat)
    (h1 : s.criticalSectionInitialized = true)
    (h2 : s.interruptsDisabled = false) :
    TbxPortInterruptsRestore t s = s ∧
    ((TbxPortInterruptsDisable s).1.interruptsDisabled = true ∧
      (TbxPortInterruptsDisable s).1.mtxLocked = true ∧
      (TbxPortInterruptsRestore t2
        (TbxPortInterruptsDisable s).1).interruptsDisabled = false ∧
      (TbxPortInterruptsRestore t2
        (TbxPortInterruptsDisable s).1).mtxLocked = false) := by
  obtain ⟨ci, idis, ml, mc, af⟩ := s
  cases h1
  cases h2
  simp [TbxPortInterruptsRestore, TbxPortInterruptsDisable]

/-- C3 witness: the redundant-Restore no-op instantiated at the
`Unlocked` state. -/
theorem redundant_restore_noop_witness :
    TbxPortInterruptsRestore 7 unlockedState = unlockedState ∧
    ((TbxPortInterruptsDisable unlockedState).1.interruptsDisabled = true ∧
      (TbxPortInterruptsDisable unlockedState).1.mtxLocked = true ∧
      (TbxPortInterruptsRestore 0
        (TbxPortInterruptsDisable unlockedState).1).interruptsDisabled
        = false ∧
      (TbxPortInterruptsRestore 0
        (TbxPortInterruptsDisable unlockedState).1).mtxLocked = false) :=
  redundant_restore_noop unlockedState 7 0 (by decide) (by decide)

/-- C4 counterexample: calling `TbxPortInterruptsRestore` from the
`Uninitialized` process-start state is not silent: the
`TBX_ASSERT(criticalSectionInitialized == TBX_TRUE)` at tbxport.c line
110 fails, so the call is surfaced through the assertion handler and
the resulting state differs from the input state. -/
theorem restore_uninit_not_silent_cex :
    (TbxPortInterruptsRestore 0 initialState).assertFailCount = 1 ∧
    TbxPortInterruptsRestore 0 initialState ≠ initialState := by decide

/-- C4 (amended): calling `TbxPortInterruptsRestore` with
`criticalSectionInitialized` still false and `interruptsDisabled`
false triggers exactly one `TBX_ASSERT` failure and otherwise changes
nothing: no flag changes and no attempt to release the unheld mutex. -/
theorem restore_uninit_assert_only (s : TbxState) (t : Nat)
    (h1 : s.criticalSectionInitialized = false)
    (h2 : s.interruptsDisabled = false) :
    TbxPortInterruptsRestore t s =
      { s with assertFailCount := s.assertFailCount + 1 } := by
  obtain ⟨ci, idis, ml, mc, af⟩ := s
  cases h1
  cases h2
  simp [TbxPortInterruptsRestore]

/-- C4 witness: the assert-only behavior instantiated at the
process-start state. -/
theorem restore_uninit_assert_only_witness :
    TbxPortInterruptsRestore 0 initialState =
      { initialState with assertFailCount :=
          initialState.assertFailCount + 1 } :=
  restore_uninit_assert_only initialState 0 rfl rfl

/-- C7 counterexample: from the `Unlocked` state, the micro-step
sequence of `TbxPortInterruptsDisable` contains an intermediate state
in which `interruptsDisabled` is already true while the mutex is not
yet acquired — the code stores the flag (tbxport.c line 83) before
calling `pthread_mutex_lock` (line 84), the opposite of the claimed
order. -/
theorem disable_order_cex :
    ∃ t ∈ disableMicroStates unlockedState,
      t.interruptsDisabled = true ∧ t.mtxLocked = false := by decide

/-- C7 (amended): when `interruptsDisabled` is false and the mutex is
not held, `TbxPortInterruptsDisable` first sets `interruptsDisabled`
to true and only then acquires the mutex: the final micro-step state
is the operation's result, and the state immediately before the last
micro-step already has `interruptsDisabled` true with the mutex still
unacquired. -/
theorem disable_sets_flag_then_locks (s : TbxState)
    (h1 : s.interruptsDisabled = false) (h2 : s.mtxLocked = false) :
    (disableMicroStates s).getLastD s = (TbxPortInterruptsDisable s).1 ∧
    (disableMicroStates s).dropLast.getLastD s =
      { (TbxPortInterruptsDisable s).1 with mtxLocked := false } ∧
    ({ (TbxPortInterruptsDisable s).1 with
        mtxLocked := false }).interruptsDisabled = true := by
  obtain ⟨ci, idis, ml, mc, af⟩ := s
  cases h1
  cases h2
  cases ci <;>
    simp [disableMicroStates, TbxPortInterruptsDisable]

/-- C7 witness: the flag-before-lock micro-step order instantiated at
the `Unlocked` state. -/
theorem disable_sets_flag_then_locks_witness :
    (disableMicroStates unlockedState).getLastD unlockedState
      = (TbxPortInterruptsDisable unlockedState).1 ∧
    (disableMicroStates unlockedState).dropLast.getLastD unlockedState
      = { (TbxPortInterruptsDisable unlockedState).1 with
            mtxLocked := false } ∧
    ({ (TbxPortInterruptsDisable unlockedState).1 with
        mtxLocked := false }).interruptsDisabled = true :=
  disable_sets_flag_then_locks unlockedState rfl rfl

/-- C9: from every state, `TbxPortInterruptsDisable` followed by
`TbxPortInterruptsRestore` ends in the `Unlocked` configuration
(initialized, interrupts enabled, mutex released); and on a state
already in the `Unlocked` configuration the composition is the
identity. -/
theorem disable_restore_roundtrip (s : TbxState) (t : Nat) :
    (TbxPortInterruptsRestore t
      (TbxPortInterruptsDisable s).1).criticalSectionInitialized = true ∧
    (TbxPortInterruptsRestore t
      (TbxPortInterruptsDisable s).1).interruptsDisabled = false ∧
    (TbxPortInterruptsRestore t
      (TbxPortInterruptsDisable s).1).mtxLocked = false ∧
    (s.criticalSectionInitialized = true → s.interruptsDisabled = false →
      s.mtxLocked = false →
      TbxPortInterruptsRestore t (TbxPortInterruptsDisable s).1 = s) := by
  obtain ⟨ci, idis, ml, mc, af⟩ := s
  cases ci <;> cases idis <;>
    simp [TbxPortInterruptsDisable, TbxPortInterruptsRestore]

/-- C9 witness: the Disable-then-Restore round trip instantiated at
the `Unlocked` state, where it is the identity. -/
theorem disable_restore_roundtrip_witness :
    (TbxPortInterruptsRestore 0
      (TbxPortInterruptsDisable unlockedState).1).criticalSectionInitialized
      = true ∧
    (TbxPortInterruptsRestore 0
      (TbxPortInterruptsDisable unlockedState).1).interruptsDisabled
      = false ∧
    (TbxPortInterruptsRestore 0
      (TbxPortInterruptsDisable unlockedState).1).mtxLocked = false ∧
    TbxPortInterruptsRestore 0 (TbxPortInterruptsDisable unlockedState).1
      = unlockedState :=
  ⟨(disable_restore_roundtrip unlockedState 0).1,
   (disable_restore_roundtrip unlockedState 0).2.1,
   (disable_restore_roundtrip unlockedState 0).2.2.1,
   (disable_restore_roundtrip unlockedState 0).2.2.2 rfl rfl rfl⟩

/-- C1: mutual exclusion fails on this code because
`interruptsDisabled` is process-global, not thread-local.  Under the
schedule `overlapSched` with two threads each performing one guarded
increment: after thread 0 completes `Disable` and thread 1 runs its
`Disable`, both threads are simultaneously inside their protected
regions (thread 1 saw `interruptsDisabled == TBX_TRUE` set by thread 0
and skipped `pthread_mutex_lock`); running the schedule to completion
finishes both threads with the shared counter equal to 1, not
N × M = 1 × 2 = 2 — a lost update. -/
theorem mutual_exclusion_violation :
    ((runSched initSys [0, 0, 0, 0, 0, 0, 1, 1]).ths.map inCritical
      = [true, true]) ∧
    ((runSched initSys overlapSched).ths.map Thread.pc
      = [TPC.tdone, TPC.tdone]) ∧
    (runSched initSys overlapSched).g.counter = 1 ∧
    (runSched initSys overlapSched).g.counter ≠ 2 := by decide
